import Mathlib

/-!
Verification of the vSphere microservice (`vsphere-microservice/app.py`).

This file gives a shallow embedding of the parts of the service the
specification talks about:

* `wait_for_tasks` — the task-completion wait loop, modelled as a recursive
  function over the finite trace of update batches delivered by the
  property collector (`WaitForUpdates`).  An exhausted trace with tasks
  still tracked models the indefinite block of `WaitForUpdates(None)`.
* `create_vm` — the `/vms/create` handler.  Remote interactions are made
  explicit as a trace of `RCall` events; outcomes of remote operations are
  supplied by a `CreateEnv` oracle record.
* `power_vm` — the `/vm/<uuid>/power` handler, same style.

Theorems after the definitions settle the specification claims.
-/

namespace VsphereApp

/-- Task state as observed from a property-collector change
(`change.val.state` / `task.info.state` in `wait_for_tasks`). -/
inductive TaskState
  | running
  | success
  | taskFailed (msg : String)
deriving DecidableEq, Repr

/-- `true` exactly on the terminal task states (success / error). -/
def terminalState : TaskState → Bool
  | TaskState.running => false
  | TaskState.success => true
  | TaskState.taskFailed _ => true

/-- One batch returned by `property_collector.WaitForUpdates`:
the elapsed wall-clock seconds (`time.time() - start_time`) at the moment the
batch is processed, and the change events it carries, each resolving to a
task identifier (`str(task)`) and an observed state.  A batch with no
events models `not update or not update.filterSet` (the `continue` branch). -/
structure UpdateBatch where
  elapsed : Nat
  events : List (String × TaskState)
deriving DecidableEq, Repr

/-- Result of the wait loop.  `completed` = normal return, `failed` = the
exception raised on a task error, `timedOut` = the exception raised by the
300 s check, `blocked` = `WaitForUpdates` never returns again (the loop
waits forever; the update trace is exhausted with tasks still tracked). -/
inductive WaitResult
  | completed
  | failed (msg : String)
  | timedOut
  | blocked
deriving DecidableEq, Repr

/-- Processing of one batch's change set in `wait_for_tasks`: tracked tasks
reaching `success` are removed from `task_list`; the first tracked task
reaching `error` is removed and the loop raises (second component `some msg`);
untracked tasks and non-terminal states are ignored. -/
def processEvents : List String → List (String × TaskState) →
    List String × Option String
  | taskList, [] => (taskList, none)
  | taskList, (tid, st) :: rest =>
    if tid ∈ taskList then
      match st with
      | TaskState.success => processEvents (taskList.erase tid) rest
      | TaskState.taskFailed m => (taskList.erase tid, some m)
      | TaskState.running => processEvents taskList rest
    else
      processEvents taskList rest

/-- The wait loop of `wait_for_tasks` (`app.py` lines 47–78), over the given
trace of update batches.  Faithful details: an empty batch (`continue`) skips
the timeout check; after processing a non-empty batch the loop raises the
timeout exception whenever more than 300 s have elapsed — even if every task
just completed — because the check precedes the loop-condition re-test. -/
def wait_for_tasks : List String → List UpdateBatch → WaitResult
  | [], _ => WaitResult.completed
  | _ :: _, [] => WaitResult.blocked
  | t :: ts, u :: rest =>
    if u.events = [] then
      wait_for_tasks (t :: ts) rest
    else
      match processEvents (t :: ts) u.events with
      | (_, some m) => WaitResult.failed m
      | (taskList, none) =>
        if 300 < u.elapsed then WaitResult.timedOut
        else wait_for_tasks taskList rest

theorem wait_for_tasks_cons (t : String) (ts : List String)
    (u : UpdateBatch) (rest : List UpdateBatch) :
    wait_for_tasks (t :: ts) (u :: rest) =
      (if u.events = [] then
        wait_for_tasks (t :: ts) rest
      else
        match processEvents (t :: ts) u.events with
        | (_, some m) => WaitResult.failed m
        | (taskList, none) =>
          if 300 < u.elapsed then WaitResult.timedOut
          else wait_for_tasks taskList rest) := by
  rfl

theorem processEvents_running (tl : List String)
    (es : List (String × TaskState))
    (h : ∀ e ∈ es, e.2 = TaskState.running) :
    processEvents tl es = (tl, none) := by
  induction es with
  | nil => rfl
  | cons e rest ih =>
    have he : e.2 = TaskState.running := h e (List.mem_cons_self e rest)
    have hrest : ∀ x ∈ rest, x.2 = TaskState.running := by
      intro x hx
      exact h x (List.mem_cons_of_mem e hx)
    obtain ⟨tid, st⟩ := e
    simp only at he
    subst he
    by_cases hmem : tid ∈ tl
    · simp [processEvents, hmem, ih hrest]
    · simp [processEvents, hmem, ih hrest]

/-- C1 counterexample: with one tracked task and no notification ever arriving
(no terminal notification inside the 300 s deadline, trivially), the wait
loop blocks forever inside `WaitForUpdates` and never reports a timeout. -/
theorem wait_for_tasks_timeout_counterexample :
    (∀ u ∈ ([] : List UpdateBatch), ∀ e ∈ u.events, terminalState e.2 = false)
      ∧ wait_for_tasks ["task-1"] [] = WaitResult.blocked
      ∧ wait_for_tasks ["task-1"] [] ≠ WaitResult.timedOut := by
  refine ⟨?_, rfl, by decide⟩
  intro u hu
  exact absurd hu (List.not_mem_nil u)

/-- C1 (amended): the 300 s deadline is only enforced when a further
non-empty update batch is processed.  If the tracked set is non-empty, every
delivered event is non-terminal (`running`), and some non-empty batch is
processed after the deadline, `wait_for_tasks` raises the timeout exception
(exactly once — the loop exits by raising). -/
theorem wait_for_tasks_timeout_after_late_batch
    (tl : List String) (updates : List UpdateBatch)
    (hne : tl ≠ [])
    (hrun : ∀ u ∈ updates, ∀ e ∈ u.events, e.2 = TaskState.running)
    (hlate : ∃ u ∈ updates, u.events ≠ [] ∧ 300 < u.elapsed) :
    wait_for_tasks tl updates = WaitResult.timedOut := by
  induction updates with
  | nil => simp at hlate
  | cons u rest ih =>
    obtain ⟨t, ts, rfl⟩ : ∃ t ts, tl = t :: ts := by
      cases tl with
      | nil => exact absurd rfl hne
      | cons t ts => exact ⟨t, ts, rfl⟩
    have hrest : ∀ v ∈ rest, ∀ e ∈ v.events, e.2 = TaskState.running := by
      intro v hv
      exact hrun v (List.mem_cons_of_mem u hv)
    by_cases hu : u.events = []
    · have hlate' : ∃ v ∈ rest, v.events ≠ [] ∧ 300 < v.elapsed := by
        obtain ⟨v, hv, hvne, hvt⟩ := hlate
        rcases List.mem_cons.mp hv with hv1 | hv2
        · exact absurd (hv1 ▸ hu) hvne
        · exact ⟨v, hv2, hvne, hvt⟩
      rw [wait_for_tasks_cons, if_pos hu]
      exact ih hrest hlate'
    · have hproc : processEvents (t :: ts) u.events = (t :: ts, none) :=
        processEvents_running _ _ (hrun u (List.mem_cons_self u rest))
      by_cases htime : 300 < u.elapsed
      · rw [wait_for_tasks_cons, if_neg hu, hproc]
        simp [htime]
      · have hlate' : ∃ v ∈ rest, v.events ≠ [] ∧ 300 < v.elapsed := by
          obtain ⟨v, hv, hvne, hvt⟩ := hlate
          rcases List.mem_cons.mp hv with hv1 | hv2
          · exact absurd (hv1 ▸ hvt) htime
          · exact ⟨v, hv2, hvne, hvt⟩
        rw [wait_for_tasks_cons, if_neg hu, hproc]
        simp only [if_neg htime]
        exact ih hrest hlate'

/-- Witness for the amended C1 theorem at a concrete input. -/
theorem wait_for_tasks_timeout_witness :
    wait_for_tasks ["task-1"]
        [⟨301, [("task-1", TaskState.running)]⟩] = WaitResult.timedOut := by
  apply wait_for_tasks_timeout_after_late_batch
  · decide
  · decide
  · exact ⟨⟨301, [("task-1", TaskState.running)]⟩, by decide, by decide, by decide⟩

/-- VM runtime power state (`vm.runtime.powerState`). -/
inductive VMPowerState
  | poweredOn
  | poweredOff
  | suspended
deriving DecidableEq, Repr

/-- Outcome of a `wait_for_tasks` call as seen by a handler: normal return,
or the exception it raised (task failure or timeout), carrying the raised
message. -/
inductive WaitOutcome
  | ok
  | exn (msg : String)
deriving DecidableEq, Repr

/-- Remote interactions a handler performs against the vSphere endpoint,
recorded in order.  Lookup events are the `get_obj` / container-view
searches; the `...VM` events are the mutating task submissions. -/
inductive RCall
  | connect
  | lookupDatastore (name : String)
  | lookupTemplate (uuid : String)
  | lookupDatacenter (name : String)
  | lookupNetwork (name : String)
  | lookupDVPortgroup (name : String)
  | lookupVM (uuid : String)
  | createVM (folder pool : Nat) (name : String)
  | cloneVM (folder : Nat) (name : String)
  | reconfigureVM (vm : Nat) (cpu mem : Int)
  | powerOnVM (vm : Nat)
  | powerOffVM (vm : Nat)
  | suspendVM (vm : Nat)
  | shutdownGuestVM (vm : Nat)
  | rebootGuestVM (vm : Nat)
  | destroyVM (vm : Nat)
  | disconnect
deriving DecidableEq, Repr

/-- `true` on the calls that mutate remote state (task submissions). -/
def mutatingCall : RCall → Bool
  | RCall.createVM _ _ _ => true
  | RCall.cloneVM _ _ => true
  | RCall.reconfigureVM _ _ _ => true
  | RCall.powerOnVM _ => true
  | RCall.powerOffVM _ => true
  | RCall.suspendVM _ => true
  | RCall.shutdownGuestVM _ => true
  | RCall.rebootGuestVM _ => true
  | RCall.destroyVM _ => true
  | _ => false

/-- HTTP response: status code, plus the error message when the body carries
one (`none` for success bodies). -/
structure HttpResp where
  status : Nat
  errMsg : Option String
deriving DecidableEq, Repr

/-- Python truthiness of an optional string parameter (`data.get(...)`):
absent and empty string are falsy. -/
def truthyStr : Option String → Bool
  | none => false
  | some s => if s = "" then false else true

/-- Python truthiness of an optional integer parameter: absent and `0` are
falsy; every other integer — including negative ones — is truthy. -/
def truthyInt : Option Int → Bool
  | none => false
  | some n => if n = 0 then false else true

/-- The JSON body of a `/vms/create` request, as read by `create_vm`.
`network_name` is carried by the request model (the spec's optional
`networkName` override) but the handler never reads it. -/
structure CreateReq where
  host : Option String
  user : Option String
  password : Option String
  name : Option String
  template_uuid : Option String
  iso_path : Option String
  guest_os : Option String
  cpu : Option Int
  memory : Option Int
  disk_gb : Int
  start_vm : Bool
  datastore_name : Option String
  network_name : Option String
deriving DecidableEq, Repr

/-- The `not all([...])` basic-parameter check of `create_vm`
(`app.py` line 112). -/
def basicParamsPresent (req : CreateReq) : Bool :=
  truthyStr req.host && truthyStr req.user && truthyStr req.password &&
    truthyStr req.name && truthyInt req.cpu && truthyInt req.memory

/-- Oracle describing the remote endpoint's behaviour during one
`create_vm` request: what the lookups find, how each awaited task resolves,
and the inventory objects used for placement. -/
structure CreateEnv where
  /-- `SmartConnect` raises `vim.fault.InvalidLogin`. -/
  loginFail : Bool
  /-- `get_obj(content, [vim.Datastore], name=...)` finds the datastore. -/
  datastoreExists : String → Bool
  /-- `get_obj(content, [vim.VirtualMachine], uuid=...)` finds the template. -/
  templateByUuid : String → Option Nat
  /-- `isinstance(template_vm.parent, vim.Folder)`. -/
  templateParentIsFolder : Bool
  /-- the template's parent folder, when it is a folder. -/
  templateParentFolder : Nat
  /-- `template_vm.summary.runtime.host.parent.name`, the name used for the
  datacenter lookup on the fallback path. -/
  templateDatacenterName : String
  /-- the folder obtained on the fallback path
  (`datacenter.vmFolder if datacenter else content.rootFolder`). -/
  templateDatacenterVmFolder : Nat
  /-- `get_obj(content, [vim.Network], name=...)` finds a standard network. -/
  standardNetworkExists : String → Bool
  /-- `get_obj(content, [vim.dvs.DistributedVirtualPortgroup], name=...)`
  finds a distributed portgroup. -/
  dvPortgroupExists : String → Bool
  /-- `content.rootFolder.childEntity[0].vmFolder`: the default VM folder of
  the first datacenter under the root folder. -/
  firstDatacenterVmFolder : Nat
  /-- `content.rootFolder.childEntity[0].hostFolder.childEntity[0].resourcePool`:
  the resource pool of the first compute resource under that datacenter's
  host folder. -/
  firstComputeResourcePool : Nat
  /-- outcome of `wait_for_tasks` on the `CreateVM_Task`. -/
  createWait : WaitOutcome
  /-- `create_task.info.result` afterwards. -/
  createResult : Option Nat
  /-- outcome of `wait_for_tasks` on the `CloneVM_Task`. -/
  cloneWait : WaitOutcome
  /-- `clone_task.info.result` afterwards. -/
  cloneResult : Option Nat
  /-- outcome of `wait_for_tasks` on the `ReconfigureVM_Task`. -/
  reconfigWait : WaitOutcome
  /-- `new_vm.runtime.powerState` when the power-on step inspects it. -/
  newVmPowerState : VMPowerState
  /-- outcome of `wait_for_tasks` on the `PowerOnVM_Task`. -/
  powerOnWait : WaitOutcome

/-- Virtual-device payload of one entry of `config_spec.deviceChange`. -/
inductive DeviceKind
  | scsiController
  | disk (capacityKB : Int) (fileName : String)
  | cdrom (mediaPath : String)
  | nic
deriving DecidableEq, Repr

/-- One `VirtualDeviceSpec` built by the from-ISO path: the device key the
builder assigns (`none` when the source leaves the key unset, as it does for
the NIC) and the device payload. -/
structure DeviceChange where
  key : Option Int
  kind : DeviceKind
deriving DecidableEq, Repr

/-- The device-change list built by the from-ISO path of `create_vm`
(`app.py` lines 155–224): SCSI controller with key 1000, disk with key 2000
on that controller, CD-ROM with placeholder key -101 on the assumed IDE
controller 200, and a VMXNET3 NIC whose key is left unset. -/
def buildDeviceChanges (dsName vmName isoP : String) (diskGB : Int) :
    List DeviceChange :=
  [ { key := some 1000, kind := DeviceKind.scsiController },
    { key := some 2000,
      kind := DeviceKind.disk (diskGB * 1024 * 1024)
        ("[" ++ dsName ++ "] " ++ vmName ++ "/" ++ vmName ++ ".vmdk") },
    { key := some (-101), kind := DeviceKind.cdrom isoP },
    { key := none, kind := DeviceKind.nic } ]

/-- The message wrapping of the generic `except Exception` handler of
`create_vm` (`app.py` line 310). -/
def createErrWrap (m : String) : String :=
  "An error occurred in Python service while creating VM: " ++ m

/-- The clone destination folder resolved by the template path
(`app.py` lines 247–250): the template's parent when it is a folder,
otherwise the owning datacenter's VM folder (root folder as last resort). -/
def cloneDestFolder (env : CreateEnv) : Nat :=
  if env.templateParentIsFolder then env.templateParentFolder
  else env.templateDatacenterVmFolder

/-- The shared power-on tail of `create_vm` (`app.py` lines 288–295): when
requested, power on the new VM unless its runtime power state is already
`poweredOn`; then return the 201 success response. -/
def powerOnPhase (req : CreateReq) (env : CreateEnv) (vm : Nat)
    (trace : List RCall) : HttpResp × List RCall :=
  if req.start_vm then
    if env.newVmPowerState = VMPowerState.poweredOn then
      ({ status := 201, errMsg := none }, trace)
    else
      match env.powerOnWait with
      | WaitOutcome.exn m =>
        ({ status := 500, errMsg := some (createErrWrap m) },
          trace ++ [RCall.powerOnVM vm])
      | WaitOutcome.ok =>
        ({ status := 201, errMsg := none }, trace ++ [RCall.powerOnVM vm])
  else
    ({ status := 201, errMsg := none }, trace)

/-- Body of the `try` block of `create_vm` after a successful connect
(`app.py` lines 126–303), with the `except Exception` handler folded in:
an exception raised by `wait_for_tasks` or by a null task result becomes
the 500 response.  The returned trace lists the remote interactions after
the connect. -/
def create_vm_body (req : CreateReq) (env : CreateEnv) :
    HttpResp × List RCall :=
  if truthyStr req.iso_path && !truthyStr req.template_uuid then
    -- creation from ISO
    if !truthyStr req.guest_os then
      ({ status := 400,
         errMsg := some "Missing guest OS identifier (specs.os) for ISO creation" },
        [])
    else if !truthyStr req.datastore_name then
      ({ status := 400,
         errMsg := some "Missing target datastore for VM disk for ISO creation" },
        [])
    else
      let dsName := req.datastore_name.getD ""
      if !env.datastoreExists dsName then
        ({ status := 404,
           errMsg := some ("Target datastore '" ++ dsName ++ "' for VM disk not found") },
          [RCall.lookupDatastore dsName])
      else
        let vmName := req.name.getD ""
        let netName := "VM Network"
        let netLookups :=
          if env.standardNetworkExists netName then [RCall.lookupNetwork netName]
          else [RCall.lookupNetwork netName, RCall.lookupDVPortgroup netName]
        let preTrace := RCall.lookupDatastore dsName :: netLookups
        if !env.standardNetworkExists netName && !env.dvPortgroupExists netName then
          ({ status := 404,
             errMsg := some ("Network '" ++ netName ++ "' not found") },
            preTrace)
        else
          let trace1 := preTrace ++
            [RCall.createVM env.firstDatacenterVmFolder
              env.firstComputeResourcePool vmName]
          match env.createWait with
          | WaitOutcome.exn m =>
            ({ status := 500, errMsg := some (createErrWrap m) }, trace1)
          | WaitOutcome.ok =>
            match env.createResult with
            | none =>
              ({ status := 500,
                 errMsg := some (createErrWrap
                   "Failed to get new VM object after creation from ISO.") },
                trace1)
            | some vm => powerOnPhase req env vm trace1
  else if truthyStr req.template_uuid && !truthyStr req.iso_path then
    -- clone from template
    let uuid := req.template_uuid.getD ""
    let t1 := [RCall.lookupTemplate uuid]
    match env.templateByUuid uuid with
    | none =>
      ({ status := 404,
         errMsg := some ("Template with UUID '" ++ uuid ++ "' not found") },
        t1)
    | some _tpl =>
      let t2 := t1 ++
        (if env.templateParentIsFolder then []
         else [RCall.lookupDatacenter env.templateDatacenterName])
      let dsLookup :=
        if truthyStr req.datastore_name then
          [RCall.lookupDatastore (req.datastore_name.getD "")]
        else []
      if truthyStr req.datastore_name &&
          !env.datastoreExists (req.datastore_name.getD "") then
        ({ status := 404,
           errMsg := some ("Datastore '" ++ req.datastore_name.getD "" ++ "' not found") },
          t2 ++ dsLookup)
      else
        let vmName := req.name.getD ""
        let t3 := t2 ++ dsLookup ++ [RCall.cloneVM (cloneDestFolder env) vmName]
        match env.cloneWait with
        | WaitOutcome.exn m =>
          ({ status := 500, errMsg := some (createErrWrap m) }, t3)
        | WaitOutcome.ok =>
          match env.cloneResult with
          | none =>
            ({ status := 500,
               errMsg := some (createErrWrap
                 "Failed to get new VM object after cloning.") },
              t3)
          | some vm =>
            let t4 := t3 ++
              [RCall.reconfigureVM vm (req.cpu.getD 0) (req.memory.getD 0)]
            match env.reconfigWait with
            | WaitOutcome.exn m =>
              ({ status := 500, errMsg := some (createErrWrap m) }, t4)
            | WaitOutcome.ok => powerOnPhase req env vm t4
  else
    ({ status := 400,
       errMsg := some "Invalid parameters: Provide either template_uuid or iso_path." },
      [])

/-- The `/vms/create` handler (`app.py` lines 84–313).  The basic-parameter
check runs before any connection; a login failure returns 401 with no
session to release (`si` is still `None`); on every other path the `finally`
block releases the session, so the trace is
`connect :: body-trace ++ [disconnect]`. -/
def create_vm (req : CreateReq) (env : CreateEnv) : HttpResp × List RCall :=
  if !basicParamsPresent req then
    ({ status := 400, errMsg := some "Missing basic parameters" }, [])
  else if env.loginFail then
    ({ status := 401, errMsg := some "vSphere login failed. Check credentials." },
      [RCall.connect])
  else
    let r := create_vm_body req env
    (r.1, RCall.connect :: r.2 ++ [RCall.disconnect])

/-- The JSON body and path parameter of a `/vm/<uuid>/power` request. -/
structure PowerReq where
  uuid : String
  host : Option String
  user : Option String
  password : Option String
  pAction : Option String
deriving DecidableEq, Repr

/-- Oracle for one `power_vm` request. -/
structure PowerEnv where
  /-- `SmartConnect` raises `vim.fault.InvalidLogin`. -/
  loginFail : Bool
  /-- the container-view search finds a VM with the given instance UUID. -/
  vmByUuid : String → Option Nat
  /-- `vm.runtime.powerState`. -/
  powerState : VMPowerState
  /-- `vm.guest.toolsRunningStatus == 'guestToolsRunning'`. -/
  toolsRunning : Bool
  /-- outcome of `wait_for_tasks` on the submitted task. -/
  waitOutcome : WaitOutcome
  /-- `task.info.state == vim.TaskInfo.State.success` after the wait. -/
  finalTaskSuccess : Bool
  /-- `task.info.error.msg` when the final state is not success. -/
  finalTaskErr : String

/-- Tail of `power_vm` after a task was submitted (`app.py` lines 456–465):
wait for it, then report success or the task's error. -/
def power_vm_finish (env : PowerEnv) (trace : List RCall) :
    HttpResp × List RCall :=
  match env.waitOutcome with
  | WaitOutcome.exn m => ({ status := 500, errMsg := some m }, trace)
  | WaitOutcome.ok =>
    if env.finalTaskSuccess then ({ status := 200, errMsg := none }, trace)
    else ({ status := 500, errMsg := some env.finalTaskErr }, trace)

/-- The `not all([...])` parameter check of `power_vm` (`app.py` line 411);
the path-supplied UUID participates with string truthiness. -/
def powerParamsPresent (req : PowerReq) : Bool :=
  truthyStr req.host && truthyStr req.user && truthyStr req.password &&
    truthyStr req.pAction && truthyStr (some req.uuid)

/-- The `/vm/<uuid>/power` handler (`app.py` lines 397–471).  Note the
source has no `finally` block here: no path releases the session. -/
def power_vm (req : PowerReq) (env : PowerEnv) : HttpResp × List RCall :=
  if !powerParamsPresent req then
    ({ status := 400, errMsg := some "Missing parameters" }, [])
  else if env.loginFail then
    ({ status := 401, errMsg := some "vSphere login failed. Check credentials." },
      [RCall.connect])
  else
    let t1 := [RCall.connect, RCall.lookupVM req.uuid]
    match env.vmByUuid req.uuid with
    | none => ({ status := 404, errMsg := some "VM not found" }, t1)
    | some vm =>
      let act := req.pAction.getD ""
      if act = "on" then
        if env.powerState = VMPowerState.poweredOff ∨
            env.powerState = VMPowerState.suspended then
          power_vm_finish env (t1 ++ [RCall.powerOnVM vm])
        else
          ({ status := 200, errMsg := none }, t1)
      else if act = "off" then
        power_vm_finish env (t1 ++ [RCall.powerOffVM vm])
      else if act = "suspend" then
        power_vm_finish env (t1 ++ [RCall.suspendVM vm])
      else if act = "shutdown_guest" then
        if env.toolsRunning then
          power_vm_finish env (t1 ++ [RCall.shutdownGuestVM vm])
        else
          power_vm_finish env (t1 ++ [RCall.powerOffVM vm])
      else if act = "reboot_guest" then
        power_vm_finish env (t1 ++ [RCall.rebootGuestVM vm])
      else
        ({ status := 400, errMsg := some "Invalid action" }, t1)

/-! ### Concrete fixtures used by witnesses and counterexamples -/

/-- A remote endpoint where every operation succeeds: datastore `DS1`,
template `tpl-123` (in a plain folder), standard network `VM Network`. -/
def happyEnv : CreateEnv where
  loginFail := false
  datastoreExists := fun n => if n = "DS1" then true else false
  templateByUuid := fun u => if u = "tpl-123" then some 7 else none
  templateParentIsFolder := true
  templateParentFolder := 3
  templateDatacenterName := "DC1"
  templateDatacenterVmFolder := 4
  standardNetworkExists := fun n => if n = "VM Network" then true else false
  dvPortgroupExists := fun _ => false
  firstDatacenterVmFolder := 10
  firstComputeResourcePool := 11
  createWait := WaitOutcome.ok
  createResult := some 8
  cloneWait := WaitOutcome.ok
  cloneResult := some 9
  reconfigWait := WaitOutcome.ok
  newVmPowerState := VMPowerState.poweredOff
  powerOnWait := WaitOutcome.ok

/-- Scenario A request: clone `tpl-123` into `web01`, 2 vCPU, 4096 MB,
power on afterwards. -/
def tplReq : CreateReq where
  host := some "vc.local"
  user := some "admin"
  password := some "pw"
  name := some "web01"
  template_uuid := some "tpl-123"
  iso_path := none
  guest_os := none
  cpu := some 2
  memory := some 4096
  disk_gb := 20
  start_vm := true
  datastore_name := none
  network_name := none

example : (create_vm tplReq happyEnv).1.status = 201 := by decide

example : (create_vm tplReq happyEnv).2 =
    [RCall.connect, RCall.lookupTemplate "tpl-123", RCall.cloneVM 3 "web01",
     RCall.reconfigureVM 9 2 4096, RCall.powerOnVM 9, RCall.disconnect] := by
  decide

/-! ### Claim theorems -/

/-- Characterization of the mutating calls of the template (clone) path,
shared by several claim proofs. -/
theorem create_vm_template_mutating_trace (req : CreateReq) (env : CreateEnv)
    (tpl : Nat)
    (hbasic : basicParamsPresent req = true)
    (hlogin : env.loginFail = false)
    (htpl : truthyStr req.template_uuid = true)
    (hiso : truthyStr req.iso_path = false)
    (hfound : env.templateByUuid (req.template_uuid.getD "") = some tpl)
    (hds : truthyStr req.datastore_name = true →
      env.datastoreExists (req.datastore_name.getD "") = true) :
    (create_vm req env).2.filter mutatingCall =
      RCall.cloneVM (cloneDestFolder env) (req.name.getD "") ::
        (match env.cloneWait, env.cloneResult with
         | WaitOutcome.ok, some vm =>
           RCall.reconfigureVM vm (req.cpu.getD 0) (req.memory.getD 0) ::
             (match env.reconfigWait with
              | WaitOutcome.ok =>
                if req.start_vm then
                  if env.newVmPowerState = VMPowerState.poweredOn then []
                  else [RCall.powerOnVM vm]
                else []
              | WaitOutcome.exn _ => [])
         | WaitOutcome.ok, none => []
         | WaitOutcome.exn _, _ => []) := by
  have hwrap : (create_vm req env).2 =
      RCall.connect :: ((create_vm_body req env).2 ++ [RCall.disconnect]) := by
    simp [create_vm, hbasic, hlogin]
  have hds' : (truthyStr req.datastore_name &&
      !env.datastoreExists (req.datastore_name.getD "")) = false := by
    by_cases hdn : truthyStr req.datastore_name = true
    · simp [hdn, hds hdn]
    · simp [hdn]
  rw [hwrap]
  unfold create_vm_body
  simp only [htpl, hiso, Bool.not_false, Bool.not_true, Bool.false_and,
    Bool.and_false, Bool.true_and, Bool.and_true, Bool.and_self,
    if_false, if_true, hfound, hds', Bool.false_eq_true, ite_false, ite_true]
  cases hcw : env.cloneWait with
  | exn m =>
    simp [mutatingCall, List.filter_append, apply_ite (List.filter mutatingCall)]
  | ok =>
    cases hcr : env.cloneResult with
    | none =>
      simp [mutatingCall, List.filter_append, apply_ite (List.filter mutatingCall)]
    | some vm =>
      cases hrw : env.reconfigWait with
      | exn m =>
        simp [mutatingCall, List.filter_append,
          apply_ite (List.filter mutatingCall)]
      | ok =>
        unfold powerOnPhase
        by_cases hsv : req.start_vm = true
        · by_cases hps : env.newVmPowerState = VMPowerState.poweredOn
          · simp [hsv, hps, mutatingCall, List.filter_append,
              apply_ite (List.filter mutatingCall)]
          · cases hpw : env.powerOnWait <;>
              simp [hsv, hps, mutatingCall, List.filter_append,
                apply_ite (List.filter mutatingCall)]
        · simp [hsv, mutatingCall, List.filter_append,
            apply_ite (List.filter mutatingCall)]

/-- C2: for every valid `FromTemplate` provisioning request, `create_vm`
submits exactly the sequence Clone, then Reconfigure, then PowerOn if
requested, and no step is submitted before the wait on the previous step's
task has returned success: the Reconfigure submission exists only when the
clone's wait returned normally and produced a VM object, and the PowerOn
submission only when the reconfigure's wait also returned normally. -/
theorem create_vm_fromTemplate_sequence (req : CreateReq) (env : CreateEnv)
    (tpl : Nat)
    (hbasic : basicParamsPresent req = true)
    (hlogin : env.loginFail = false)
    (htpl : truthyStr req.template_uuid = true)
    (hiso : truthyStr req.iso_path = false)
    (hfound : env.templateByUuid (req.template_uuid.getD "") = some tpl)
    (hds : truthyStr req.datastore_name = true →
      env.datastoreExists (req.datastore_name.getD "") = true) :
    (create_vm req env).2.filter mutatingCall =
      RCall.cloneVM (cloneDestFolder env) (req.name.getD "") ::
        (match env.cloneWait, env.cloneResult with
         | WaitOutcome.ok, some vm =>
           RCall.reconfigureVM vm (req.cpu.getD 0) (req.memory.getD 0) ::
             (match env.reconfigWait with
              | WaitOutcome.ok =>
                if req.start_vm then
                  if env.newVmPowerState = VMPowerState.poweredOn then []
                  else [RCall.powerOnVM vm]
                else []
              | WaitOutcome.exn _ => [])
         | WaitOutcome.ok, none => []
         | WaitOutcome.exn _, _ => []) :=
  create_vm_template_mutating_trace req env tpl hbasic hlogin htpl hiso
    hfound hds

/-- Witness for C2: on Scenario A's request against the all-success
endpoint, the mutating calls are exactly clone, reconfigure, power-on. -/
theorem create_vm_fromTemplate_sequence_witness :
    (create_vm tplReq happyEnv).2.filter mutatingCall =
      [RCall.cloneVM 3 "web01", RCall.reconfigureVM 9 2 4096,
       RCall.powerOnVM 9] :=
  (create_vm_fromTemplate_sequence tplReq happyEnv 7 (by decide) rfl
    (by decide) (by decide) (by decide) (by decide)).trans (by decide)

/-- A valid power-on request for `power_vm`. -/
def powerReqOn : PowerReq where
  uuid := "4210f5e5-1111-2222-3333-444455556666"
  host := some "vc.local"
  user := some "admin"
  password := some "pw"
  pAction := some "on"

/-- An endpoint where `powerReqOn` finds a powered-off VM and the power-on
task succeeds. -/
def powerEnvOn : PowerEnv where
  loginFail := false
  vmByUuid := fun u =>
    if u = "4210f5e5-1111-2222-3333-444455556666" then some 9 else none
  powerState := VMPowerState.poweredOff
  toolsRunning := true
  waitOutcome := WaitOutcome.ok
  finalTaskSuccess := true
  finalTaskErr := ""

theorem power_vm_finish_trace (env : PowerEnv) (t : List RCall) :
    (power_vm_finish env t).2 = t := by
  unfold power_vm_finish
  cases env.waitOutcome with
  | exn m => rfl
  | ok => by_cases h : env.finalTaskSuccess = true <;> simp [h]

theorem power_vm_no_disconnect (preq : PowerReq) (penv : PowerEnv) :
    RCall.disconnect ∉ (power_vm preq penv).2 := by
  unfold power_vm
  by_cases h1 : powerParamsPresent preq = true
  · by_cases h2 : penv.loginFail = true
    · simp [h1, h2]
    · cases hvm : penv.vmByUuid preq.uuid with
      | none => simp [h1, h2, hvm]
      | some vm =>
        by_cases ha1 : preq.pAction.getD "" = "on"
        · by_cases hst : penv.powerState = VMPowerState.poweredOff ∨
              penv.powerState = VMPowerState.suspended
          · simp [h1, h2, hvm, ha1, hst, power_vm_finish_trace]
          · simp [h1, h2, hvm, ha1, hst]
        · by_cases ha2 : preq.pAction.getD "" = "off"
          · simp [h1, h2, hvm, ha1, ha2, power_vm_finish_trace]
          · by_cases ha3 : preq.pAction.getD "" = "suspend"
            · simp [h1, h2, hvm, ha1, ha2, ha3, power_vm_finish_trace]
            · by_cases ha4 : preq.pAction.getD "" = "shutdown_guest"
              · by_cases htr : penv.toolsRunning = true
                · simp [h1, h2, hvm, ha1, ha2, ha3, ha4, htr,
                    power_vm_finish_trace]
                · simp [h1, h2, hvm, ha1, ha2, ha3, ha4, htr,
                    power_vm_finish_trace]
              · by_cases ha5 : preq.pAction.getD "" = "reboot_guest"
                · simp [h1, h2, hvm, ha1, ha2, ha3, ha4, ha5,
                    power_vm_finish_trace]
                · simp [h1, h2, hvm, ha1, ha2, ha3, ha4, ha5]
  · simp [h1]

/-- C3 counterexample: a fully successful power-on request handled by
`power_vm` opens a vSphere session (the connect call) and returns without
ever releasing it — the handler has no release on this (or any) exit path. -/
theorem power_vm_session_leak_counterexample :
    (power_vm powerReqOn powerEnvOn).1.status = 200 ∧
    RCall.connect ∈ (power_vm powerReqOn powerEnvOn).2 ∧
    RCall.disconnect ∉ (power_vm powerReqOn powerEnvOn).2 := by
  decide

/-- C3 (amended): `create_vm` releases the session on every exit path on
which it was acquired (its `finally` block), but `power_vm` releases the
session on no path at all: its trace never contains a disconnect. -/
theorem session_release_amended (req : CreateReq) (env : CreateEnv)
    (preq : PowerReq) (penv : PowerEnv)
    (hlogin : env.loginFail = false) :
    (RCall.connect ∈ (create_vm req env).2 →
      RCall.disconnect ∈ (create_vm req env).2) ∧
    RCall.disconnect ∉ (power_vm preq penv).2 := by
  constructor
  · intro _hconn
    unfold create_vm
    by_cases hb : basicParamsPresent req = true
    · simp [hb, hlogin]
    · unfold create_vm at _hconn
      simp [hb] at _hconn
  · exact power_vm_no_disconnect preq penv

/-- Witness for the amended C3 theorem at concrete inputs. -/
theorem session_release_amended_witness :
    RCall.disconnect ∈ (create_vm tplReq happyEnv).2 ∧
    RCall.disconnect ∉ (power_vm powerReqOn powerEnvOn).2 :=
  ⟨(session_release_amended tplReq happyEnv powerReqOn powerEnvOn rfl).1
      (by decide),
   (session_release_amended tplReq happyEnv powerReqOn powerEnvOn rfl).2⟩

/-- An invalid request: both the template source and the boot-media source
are set. -/
def bothSourcesReq : CreateReq :=
  { tplReq with
      iso_path := some "[DS1] isos/ubuntu.iso"
      guest_os := some "ubuntu64Guest"
      datastore_name := some "DS1" }

/-- C4 counterexample: a request with both `template_uuid` and `iso_path`
set is rejected with the 400 validation error, but only after a remote call
— the session login — has already been issued, so the claim that the
rejection precedes any remote call fails. -/
theorem invalid_source_remote_call_counterexample :
    (create_vm bothSourcesReq happyEnv).1.status = 400 ∧
    RCall.connect ∈ (create_vm bothSourcesReq happyEnv).2 := by
  decide

/-- C4 (amended): for the invalid source combinations (both sources set;
boot media without a guest OS identifier; boot media without a datastore
name) `create_vm` answers 400 and the only remote interaction is the
session connect (paired with its release) — no inventory lookup and no
mutating call is issued. -/
theorem create_vm_invalid_source_amended (req : CreateReq) (env : CreateEnv)
    (hbasic : basicParamsPresent req = true)
    (hlogin : env.loginFail = false)
    (hbad :
      (truthyStr req.template_uuid = true ∧ truthyStr req.iso_path = true) ∨
      (truthyStr req.iso_path = true ∧ truthyStr req.template_uuid = false ∧
        truthyStr req.guest_os = false) ∨
      (truthyStr req.iso_path = true ∧ truthyStr req.template_uuid = false ∧
        truthyStr req.guest_os = true ∧
        truthyStr req.datastore_name = false)) :
    (create_vm req env).1.status = 400 ∧
    (create_vm req env).2 = [RCall.connect, RCall.disconnect] := by
  rcases hbad with ⟨h1, h2⟩ | ⟨h1, h2, h3⟩ | ⟨h1, h2, h3, h4⟩
  · constructor <;> simp [create_vm, create_vm_body, hbasic, hlogin, h1, h2]
  · constructor <;>
      simp [create_vm, create_vm_body, hbasic, hlogin, h1, h2, h3]
  · constructor <;>
      simp [create_vm, create_vm_body, hbasic, hlogin, h1, h2, h3, h4]

/-- Witness for the amended C4 theorem at a concrete input. -/
theorem create_vm_invalid_source_amended_witness :
    (create_vm bothSourcesReq happyEnv).1.status = 400 ∧
    (create_vm bothSourcesReq happyEnv).2 =
      [RCall.connect, RCall.disconnect] :=
  create_vm_invalid_source_amended bothSourcesReq happyEnv (by decide) rfl
    (Or.inl ⟨by decide, by decide⟩)

/-- A boot-media request that explicitly names the network `CustomNet`. -/
def isoReqCustomNet : CreateReq where
  host := some "vc.local"
  user := some "admin"
  password := some "pw"
  name := some "web02"
  template_uuid := none
  iso_path := some "[DS1] isos/ubuntu.iso"
  guest_os := some "ubuntu64Guest"
  cpu := some 2
  memory := some 4096
  disk_gb := 20
  start_vm := false
  datastore_name := some "DS1"
  network_name := some "CustomNet"

/-- An endpoint on which `CustomNet` exists but `VM Network` does not. -/
def customNetEnv : CreateEnv :=
  { happyEnv with
      standardNetworkExists := fun n => if n = "CustomNet" then true else false
      dvPortgroupExists := fun _ => false }

/-- C5 counterexample: the request names the existing network `CustomNet`,
yet `create_vm` never looks `CustomNet` up — it looks up the hardcoded
`VM Network` only and fails 404 — so the provided network name is not
used. -/
theorem network_name_ignored_counterexample :
    isoReqCustomNet.network_name = some "CustomNet" ∧
    customNetEnv.standardNetworkExists "CustomNet" = true ∧
    (create_vm isoReqCustomNet customNetEnv).1.status = 404 ∧
    RCall.lookupNetwork "CustomNet" ∉
      (create_vm isoReqCustomNet customNetEnv).2 ∧
    RCall.lookupNetwork "VM Network" ∈
      (create_vm isoReqCustomNet customNetEnv).2 := by
  decide

theorem create_vm_ignores_network_name (req : CreateReq) (env : CreateEnv)
    (x : Option String) :
    create_vm { req with network_name := x } env = create_vm req env := by
  cases req
  rfl

/-- C5 (amended): on the boot-media path the network is always resolved
under the fixed name `VM Network` (first as a standard network, then as a
distributed portgroup); the request's `network_name` field is never read,
and when neither lookup resolves the request fails 404. -/
theorem create_vm_network_default_amended (req : CreateReq) (env : CreateEnv)
    (hbasic : basicParamsPresent req = true)
    (hlogin : env.loginFail = false)
    (hiso : truthyStr req.iso_path = true)
    (htpl : truthyStr req.template_uuid = false)
    (hos : truthyStr req.guest_os = true)
    (hds : truthyStr req.datastore_name = true)
    (hdse : env.datastoreExists (req.datastore_name.getD "") = true)
    (hnet1 : env.standardNetworkExists "VM Network" = false)
    (hnet2 : env.dvPortgroupExists "VM Network" = false) :
    (create_vm req env).1.status = 404 ∧
    (∀ n, RCall.lookupNetwork n ∈ (create_vm req env).2 →
      n = "VM Network") ∧
    (∀ x, create_vm { req with network_name := x } env = create_vm req env) := by
  have hbody : create_vm req env =
      ({ status := 404, errMsg := some "Network 'VM Network' not found" },
        [RCall.connect, RCall.lookupDatastore (req.datastore_name.getD ""),
         RCall.lookupNetwork "VM Network",
         RCall.lookupDVPortgroup "VM Network", RCall.disconnect]) := by
    simp [create_vm, create_vm_body, hbasic, hlogin, hiso, htpl, hos, hds,
      hdse, hnet1, hnet2]
  refine ⟨by rw [hbody], ?_, fun x => create_vm_ignores_network_name req env x⟩
  intro n hn
  rw [hbody] at hn
  simp only [List.mem_cons, List.not_mem_nil, or_false] at hn
  rcases hn with h | h | h | h | h <;> first
    | (cases h; rfl)
    | cases h

/-- Witness for the amended C5 theorem at a concrete input. -/
theorem create_vm_network_default_amended_witness :
    (create_vm isoReqCustomNet customNetEnv).1.status = 404 ∧
    (create_vm { isoReqCustomNet with network_name := some "OtherNet" }
        customNetEnv) =
      create_vm isoReqCustomNet customNetEnv :=
  have h := create_vm_network_default_amended isoReqCustomNet customNetEnv
    (by decide) rfl (by decide) (by decide) (by decide) (by decide)
    (by decide) (by decide) (by decide)
  ⟨h.1, h.2.2 (some "OtherNet")⟩

/-- C6 counterexample: the device-change list assigns the SCSI controller
key 1000 — an assigned key that is not a negative placeholder, refuting the
claim that the builder's keys are unique *negative* placeholders. -/
theorem device_keys_negative_counterexample :
    (buildDeviceChanges "DS1" "web02" "[DS1] isos/ubuntu.iso" 20).map
        DeviceChange.key = [some 1000, some 2000, some (-101), none] ∧
    ¬((1000 : Int) < 0) := by
  decide

/-- C6 (amended): the keys the builder assigns are unique within one
submission — 1000 (SCSI controller), 2000 (disk), -101 (CD-ROM), with the
NIC key left unset — but only the CD-ROM key is a negative placeholder. -/
theorem device_keys_unique_amended (ds vmName isoP : String) (gb : Int) :
    (buildDeviceChanges ds vmName isoP gb).filterMap DeviceChange.key =
      [1000, 2000, -101] ∧
    ((buildDeviceChanges ds vmName isoP gb).filterMap DeviceChange.key).Nodup ∧
    ∃ d ∈ buildDeviceChanges ds vmName isoP gb,
      ∃ k, d.key = some k ∧ 0 ≤ k := by
  have hkeys : (buildDeviceChanges ds vmName isoP gb).filterMap
      DeviceChange.key = [1000, 2000, -101] := rfl
  refine ⟨hkeys, ?_, ?_⟩
  · rw [hkeys]
    decide
  · exact ⟨{ key := some 1000, kind := DeviceKind.scsiController },
      List.mem_cons_self _ _, 1000, rfl, by decide⟩

/-- The concrete environment of `happyEnv`, except that the freshly created
VM is observed already powered on. -/
def alreadyOnEnv : CreateEnv :=
  { happyEnv with newVmPowerState := VMPowerState.poweredOn }

/-- `powerEnvOn`, except the target VM is observed already powered on. -/
def powerEnvAlreadyOn : PowerEnv :=
  { powerEnvOn with powerState := VMPowerState.poweredOn }

/-- C7: the power-on step is an idempotent no-op on an already-powered-on
VM.  The power-on step of `create_vm` (`powerOnPhase`, source lines
288–295) returns the success response and leaves the call trace unchanged
— no power-on submission — whenever the new VM's observed runtime power
state is `poweredOn`; consequently a valid clone request against such an
endpoint submits only clone and reconfigure.  In `power_vm`, the `on`
action on a powered-on VM answers 200 success without submitting any
power-on task. -/
theorem power_on_idempotent (req : CreateReq) (env : CreateEnv)
    (vm tpl : Nat) (t : List RCall) (preq : PowerReq) (penv : PowerEnv)
    (hce : env.newVmPowerState = VMPowerState.poweredOn)
    (hbasic : basicParamsPresent req = true)
    (hlogin : env.loginFail = false)
    (htpl : truthyStr req.template_uuid = true)
    (hiso : truthyStr req.iso_path = false)
    (hfound : env.templateByUuid (req.template_uuid.getD "") = some tpl)
    (hds : truthyStr req.datastore_name = true →
      env.datastoreExists (req.datastore_name.getD "") = true)
    (hcw : env.cloneWait = WaitOutcome.ok)
    (hcr : env.cloneResult = some vm)
    (hrw : env.reconfigWait = WaitOutcome.ok)
    (hp1 : powerParamsPresent preq = true)
    (hp2 : penv.loginFail = false)
    (hp3 : ∃ w, penv.vmByUuid preq.uuid = some w)
    (hp4 : preq.pAction = some "on")
    (hp5 : penv.powerState = VMPowerState.poweredOn) :
    powerOnPhase req env vm t = ({ status := 201, errMsg := none }, t) ∧
    (create_vm req env).2.filter mutatingCall =
      [RCall.cloneVM (cloneDestFolder env) (req.name.getD ""),
       RCall.reconfigureVM vm (req.cpu.getD 0) (req.memory.getD 0)] ∧
    (power_vm preq penv).1 = { status := 200, errMsg := none } ∧
    (∀ v, RCall.powerOnVM v ∉ (power_vm preq penv).2) := by
  obtain ⟨w, hvm⟩ := hp3
  refine ⟨?_, ?_, ?_, ?_⟩
  · unfold powerOnPhase
    by_cases hs : req.start_vm = true <;> simp [hs, hce]
  · have hmut := create_vm_template_mutating_trace req env tpl hbasic hlogin
      htpl hiso hfound hds
    rw [hcw, hcr, hrw, hce] at hmut
    simpa using hmut
  · simp [power_vm, hp1, hp2, hvm, hp4, hp5]
  · intro v
    simp [power_vm, hp1, hp2, hvm, hp4, hp5]

/-- Witness for C7 at concrete inputs. -/
theorem power_on_idempotent_witness :
    (create_vm tplReq alreadyOnEnv).2.filter mutatingCall =
      [RCall.cloneVM 3 "web01", RCall.reconfigureVM 9 2 4096] ∧
    (power_vm powerReqOn powerEnvAlreadyOn).1 =
      { status := 200, errMsg := none } :=
  have h := power_on_idempotent tplReq alreadyOnEnv 9 7 [] powerReqOn
    powerEnvAlreadyOn rfl (by decide) rfl (by decide) (by decide) (by decide)
    (by decide) rfl rfl rfl (by decide) rfl ⟨9, by decide⟩ rfl rfl
  ⟨(h.2.1).trans (by decide), h.2.2.1⟩

/-- The environment of `happyEnv`, except the reconfigure task's wait
raises (remote failure or timeout at the reconfigure step). -/
def reconfigFailEnv : CreateEnv :=
  { happyEnv with reconfigWait := WaitOutcome.exn "reconfig failed" }

theorem truthyStr_eq_false (o : Option String) :
    truthyStr o = false ↔ (o = none ∨ o = some "") := by
  cases o with
  | none => simp [truthyStr]
  | some s => by_cases h : s = "" <;> simp [truthyStr, h]

theorem truthyInt_eq_false (o : Option Int) :
    truthyInt o = false ↔ (o = none ∨ o = some 0) := by
  cases o with
  | none => simp [truthyInt]
  | some n => by_cases h : n = 0 <;> simp [truthyInt, h]

/-- `tplReq` with a negative CPU count and an unknown template. -/
def negCpuReq : CreateReq :=
  { tplReq with cpu := some (-1), template_uuid := some "missing-tpl" }

/-- C9 counterexample: `cpu = -1` is not a positive integer, yet the
request is not rejected by the validation step — it passes the truthiness
check, the handler connects and proceeds, and the outcome here is the
template-lookup 404, not a 400 validation error. -/
theorem negative_cpu_validation_counterexample :
    negCpuReq.cpu = some (-1) ∧
    basicParamsPresent negCpuReq = true ∧
    (create_vm negCpuReq happyEnv).1.status = 404 ∧
    ¬(create_vm negCpuReq happyEnv).1.status = 400 := by
  decide

/-- C9 (amended): given connection credentials, `create_vm`'s basic
validation (the 400 answered before any remote interaction, hence with an
empty call trace) rejects exactly the requests whose name is missing or
empty, or whose cpu or memory is missing or zero.  Negative or otherwise
non-positive-but-nonzero integers pass this validation. -/
theorem create_vm_basic_validation_amended (req : CreateReq)
    (env : CreateEnv)
    (hhost : truthyStr req.host = true)
    (huser : truthyStr req.user = true)
    (hpw : truthyStr req.password = true) :
    ((create_vm req env).1.status = 400 ∧ (create_vm req env).2 = []) ↔
      (req.name = none ∨ req.name = some "" ∨ req.cpu = none ∨
       req.cpu = some 0 ∨ req.memory = none ∨ req.memory = some 0) := by
  constructor
  · rintro ⟨hst, htr⟩
    by_cases hb : basicParamsPresent req = true
    · exfalso
      by_cases hl : env.loginFail = true
      · simp [create_vm, hb, hl] at htr
      · simp [create_vm, hb, hl] at htr
    · have hb' : basicParamsPresent req = false := by
        revert hb
        cases basicParamsPresent req <;> simp
      unfold basicParamsPresent at hb'
      simp only [hhost, huser, hpw, Bool.true_and] at hb'
      rcases Bool.and_eq_false_iff.mp hb' with h | h
      · rcases Bool.and_eq_false_iff.mp h with h2 | h2
        · rcases truthyStr_eq_false req.name |>.mp h2 with h3 | h3
          · exact Or.inl h3
          · exact Or.inr (Or.inl h3)
        · rcases truthyInt_eq_false req.cpu |>.mp h2 with h3 | h3
          · exact Or.inr (Or.inr (Or.inl h3))
          · exact Or.inr (Or.inr (Or.inr (Or.inl h3)))
      · rcases truthyInt_eq_false req.memory |>.mp h with h3 | h3
        · exact Or.inr (Or.inr (Or.inr (Or.inr (Or.inl h3))))
        · exact Or.inr (Or.inr (Or.inr (Or.inr (Or.inr h3))))
  · intro hrhs
    have hb : basicParamsPresent req = false := by
      unfold basicParamsPresent
      rcases hrhs with h | h | h | h | h | h <;>
        simp [truthyStr, truthyInt, h]
    simp [create_vm, hb]

/-- `tplReq` with cpu zero. -/
def zeroCpuReq : CreateReq := { tplReq with cpu := some 0 }

/-- Witness for the amended C9 theorem at a concrete input. -/
theorem create_vm_basic_validation_amended_witness :
    (create_vm zeroCpuReq happyEnv).1.status = 400 ∧
    (create_vm zeroCpuReq happyEnv).2 = [] :=
  (create_vm_basic_validation_amended zeroCpuReq happyEnv (by decide)
    (by decide) (by decide)).mpr (by decide)

/-- A boot-media request without any network override. -/
def isoReq : CreateReq := { isoReqCustomNet with network_name := none }

/-- C10: on the boot-media path the placement submitted with the create
call is always the first datacenter's default VM folder
(`content.rootFolder.childEntity[0].vmFolder`) and the resource pool of the
first compute resource under that datacenter's host folder — whatever the
request contains, any create submission in the trace carries exactly that
folder and pool. -/
theorem create_vm_iso_placement (req : CreateReq) (env : CreateEnv)
    (hbasic : basicParamsPresent req = true)
    (hlogin : env.loginFail = false)
    (hiso : truthyStr req.iso_path = true)
    (htpl : truthyStr req.template_uuid = false)
    (hos : truthyStr req.guest_os = true)
    (hds : truthyStr req.datastore_name = true)
    (hdse : env.datastoreExists (req.datastore_name.getD "") = true)
    (hnet : env.standardNetworkExists "VM Network" = true) :
    RCall.createVM env.firstDatacenterVmFolder env.firstComputeResourcePool
        (req.name.getD "") ∈ (create_vm req env).2 ∧
    (∀ f p n, RCall.createVM f p n ∈ (create_vm req env).2 →
      f = env.firstDatacenterVmFolder ∧ p = env.firstComputeResourcePool) := by
  have hwrap : (create_vm req env).2 =
      RCall.connect :: ((create_vm_body req env).2 ++ [RCall.disconnect]) := by
    simp [create_vm, hbasic, hlogin]
  rw [hwrap]
  unfold create_vm_body
  simp only [hiso, htpl, hos, hds, hdse, hnet, Bool.not_false, Bool.not_true,
    Bool.true_and, Bool.and_true, Bool.false_and, Bool.and_false,
    Bool.and_self, if_true, if_false, ite_true, ite_false,
    Bool.false_eq_true]
  cases hcw : env.createWait with
  | exn m =>
    refine ⟨by simp, ?_⟩
    intro f p n hmem
    simp at hmem
    exact ⟨hmem.1, hmem.2.1⟩
  | ok =>
    cases hcr : env.createResult with
    | none =>
      refine ⟨by simp, ?_⟩
      intro f p n hmem
      simp at hmem
      exact ⟨hmem.1, hmem.2.1⟩
    | some vm =>
      unfold powerOnPhase
      by_cases hs : req.start_vm = true
      · by_cases hps : env.newVmPowerState = VMPowerState.poweredOn
        · refine ⟨by simp [hs, hps], ?_⟩
          intro f p n hmem
          simp [hs, hps] at hmem
          exact ⟨hmem.1, hmem.2.1⟩
        · cases hpw : env.powerOnWait with
          | exn m =>
            refine ⟨by simp [hs, hps], ?_⟩
            intro f p n hmem
            simp [hs, hps] at hmem
            exact ⟨hmem.1, hmem.2.1⟩
          | ok =>
            refine ⟨by simp [hs, hps], ?_⟩
            intro f p n hmem
            simp [hs, hps] at hmem
            exact ⟨hmem.1, hmem.2.1⟩
      · refine ⟨by simp [hs], ?_⟩
        intro f p n hmem
        simp [hs] at hmem
        exact ⟨hmem.1, hmem.2.1⟩

/-- Witness for C10 at a concrete input. -/
theorem create_vm_iso_placement_witness :
    RCall.createVM 10 11 "web02" ∈ (create_vm isoReq happyEnv).2 :=
  (create_vm_iso_placement isoReq happyEnv (by decide) rfl (by decide)
    (by decide) (by decide) (by decide) (by decide) (by decide)).1

/-- The environment of `happyEnv`, except the power-on task's wait raises
(remote failure or timeout at the power-on step). -/
def powerOnFailEnv : CreateEnv :=
  { happyEnv with powerOnWait := WaitOutcome.exn "poweron failed" }

/-- The boot-media request `isoReq`, with power-on requested. -/
def isoReqStart : CreateReq := { isoReq with start_vm := true }

theorem no_destroy_of_mut_filter {t l : List RCall}
    (hf : t.filter mutatingCall = l)
    (hl : ∀ v, RCall.destroyVM v ∉ l) :
    ∀ v, RCall.destroyVM v ∉ t := by
  intro v hv
  exact hl v (hf ▸ List.mem_filter.mpr ⟨hv, rfl⟩)

/-- C8: when a failure occurs at the Reconfigure or PowerOn step after the
clone (template path) or the create (boot-media path) has already
succeeded, `create_vm` submits nothing further and in particular never
destroys the already-created VM; the failure is reported to the caller as
a 500 response carrying the raised message.  The three cases — reconfigure
failure after a successful clone, power-on failure after a successful
clone and reconfigure, and power-on failure after a successful boot-media
create — are the three conjuncts. -/
theorem create_vm_no_rollback_on_late_failure (req : CreateReq)
    (env : CreateEnv) (tpl vm : Nat) (m : String)
    (hbasic : basicParamsPresent req = true)
    (hlogin : env.loginFail = false) :
    (truthyStr req.template_uuid = true → truthyStr req.iso_path = false →
      env.templateByUuid (req.template_uuid.getD "") = some tpl →
      (truthyStr req.datastore_name = true →
        env.datastoreExists (req.datastore_name.getD "") = true) →
      env.cloneWait = WaitOutcome.ok →
      env.cloneResult = some vm →
      env.reconfigWait = WaitOutcome.exn m →
      (create_vm req env).1.status = 500 ∧
      (create_vm req env).1.errMsg = some (createErrWrap m) ∧
      (∀ v, RCall.destroyVM v ∉ (create_vm req env).2) ∧
      (create_vm req env).2.filter mutatingCall =
        [RCall.cloneVM (cloneDestFolder env) (req.name.getD ""),
         RCall.reconfigureVM vm (req.cpu.getD 0) (req.memory.getD 0)]) ∧
    (truthyStr req.template_uuid = true → truthyStr req.iso_path = false →
      env.templateByUuid (req.template_uuid.getD "") = some tpl →
      (truthyStr req.datastore_name = true →
        env.datastoreExists (req.datastore_name.getD "") = true) →
      env.cloneWait = WaitOutcome.ok →
      env.cloneResult = some vm →
      env.reconfigWait = WaitOutcome.ok →
      req.start_vm = true →
      ¬(env.newVmPowerState = VMPowerState.poweredOn) →
      env.powerOnWait = WaitOutcome.exn m →
      (create_vm req env).1.status = 500 ∧
      (create_vm req env).1.errMsg = some (createErrWrap m) ∧
      (∀ v, RCall.destroyVM v ∉ (create_vm req env).2) ∧
      (create_vm req env).2.filter mutatingCall =
        [RCall.cloneVM (cloneDestFolder env) (req.name.getD ""),
         RCall.reconfigureVM vm (req.cpu.getD 0) (req.memory.getD 0),
         RCall.powerOnVM vm]) ∧
    (truthyStr req.iso_path = true → truthyStr req.template_uuid = false →
      truthyStr req.guest_os = true → truthyStr req.datastore_name = true →
      env.datastoreExists (req.datastore_name.getD "") = true →
      (env.standardNetworkExists "VM Network" = true ∨
        env.dvPortgroupExists "VM Network" = true) →
      env.createWait = WaitOutcome.ok →
      env.createResult = some vm →
      req.start_vm = true →
      ¬(env.newVmPowerState = VMPowerState.poweredOn) →
      env.powerOnWait = WaitOutcome.exn m →
      (create_vm req env).1.status = 500 ∧
      (create_vm req env).1.errMsg = some (createErrWrap m) ∧
      (∀ v, RCall.destroyVM v ∉ (create_vm req env).2) ∧
      (create_vm req env).2.filter mutatingCall =
        [RCall.createVM env.firstDatacenterVmFolder
           env.firstComputeResourcePool (req.name.getD ""),
         RCall.powerOnVM vm]) := by
  refine ⟨?_, ?_, ?_⟩
  · intro htpl hiso hfound hds hcw hcr hrw
    have hmut := create_vm_template_mutating_trace req env tpl hbasic hlogin
      htpl hiso hfound hds
    rw [hcw, hcr, hrw] at hmut
    have hds' : (truthyStr req.datastore_name &&
        !env.datastoreExists (req.datastore_name.getD "")) = false := by
      by_cases hdn : truthyStr req.datastore_name = true
      · simp [hdn, hds hdn]
      · simp [hdn]
    have hresp : (create_vm req env).1 =
        { status := 500, errMsg := some (createErrWrap m) } := by
      have hwrap1 : (create_vm req env).1 = (create_vm_body req env).1 := by
        simp [create_vm, hbasic, hlogin]
      rw [hwrap1]
      unfold create_vm_body
      simp [htpl, hiso, hfound, hds', hcw, hcr, hrw]
    refine ⟨by rw [hresp], by rw [hresp],
      no_destroy_of_mut_filter hmut (by intro v; simp), hmut⟩
  · intro htpl hiso hfound hds hcw hcr hrw hsv hps hpw
    have hmut := create_vm_template_mutating_trace req env tpl hbasic hlogin
      htpl hiso hfound hds
    rw [hcw, hcr, hrw] at hmut
    simp only [hsv, hps, if_true, ite_true, if_false, ite_false] at hmut
    have hds' : (truthyStr req.datastore_name &&
        !env.datastoreExists (req.datastore_name.getD "")) = false := by
      by_cases hdn : truthyStr req.datastore_name = true
      · simp [hdn, hds hdn]
      · simp [hdn]
    have hresp : (create_vm req env).1 =
        { status := 500, errMsg := some (createErrWrap m) } := by
      have hwrap1 : (create_vm req env).1 = (create_vm_body req env).1 := by
        simp [create_vm, hbasic, hlogin]
      rw [hwrap1]
      unfold create_vm_body powerOnPhase
      simp [htpl, hiso, hfound, hds', hcw, hcr, hrw, hsv, hps, hpw]
    refine ⟨by rw [hresp], by rw [hresp],
      no_destroy_of_mut_filter hmut (by intro v; simp), hmut⟩
  · intro hiso htpl hos hdsn hdse hnet hcw hcr hsv hps hpw
    by_cases hstd : env.standardNetworkExists "VM Network" = true
    · have hbody : create_vm req env =
          ({ status := 500, errMsg := some (createErrWrap m) },
           [RCall.connect,
            RCall.lookupDatastore (req.datastore_name.getD ""),
            RCall.lookupNetwork "VM Network",
            RCall.createVM env.firstDatacenterVmFolder
              env.firstComputeResourcePool (req.name.getD ""),
            RCall.powerOnVM vm, RCall.disconnect]) := by
        simp [create_vm, create_vm_body, powerOnPhase, hbasic, hlogin, hiso,
          htpl, hos, hdsn, hdse, hstd, hcw, hcr, hsv, hps, hpw]
      refine ⟨by rw [hbody], by rw [hbody], ?_, ?_⟩
      · intro v hv
        rw [hbody] at hv
        simp at hv
      · rw [hbody]
        rfl
    · have hdvp : env.dvPortgroupExists "VM Network" = true := by
        rcases hnet with h | h
        · exact absurd h hstd
        · exact h
      have hbody : create_vm req env =
          ({ status := 500, errMsg := some (createErrWrap m) },
           [RCall.connect,
            RCall.lookupDatastore (req.datastore_name.getD ""),
            RCall.lookupNetwork "VM Network",
            RCall.lookupDVPortgroup "VM Network",
            RCall.createVM env.firstDatacenterVmFolder
              env.firstComputeResourcePool (req.name.getD ""),
            RCall.powerOnVM vm, RCall.disconnect]) := by
        simp [create_vm, create_vm_body, powerOnPhase, hbasic, hlogin, hiso,
          htpl, hos, hdsn, hdse, hstd, hdvp, hcw, hcr, hsv, hps, hpw]
      refine ⟨by rw [hbody], by rw [hbody], ?_, ?_⟩
      · intro v hv
        rw [hbody] at hv
        simp at hv
      · rw [hbody]
        rfl

/-- Witness for C8 at concrete inputs, one per conjunct: reconfigure
failure after a successful clone, power-on failure after a successful
clone and reconfigure, and power-on failure after a successful boot-media
create. -/
theorem create_vm_no_rollback_on_late_failure_witness :
    ((create_vm tplReq reconfigFailEnv).1.status = 500 ∧
     (create_vm tplReq reconfigFailEnv).2.filter mutatingCall =
       [RCall.cloneVM 3 "web01", RCall.reconfigureVM 9 2 4096]) ∧
    ((create_vm tplReq powerOnFailEnv).1.status = 500 ∧
     (create_vm tplReq powerOnFailEnv).2.filter mutatingCall =
       [RCall.cloneVM 3 "web01", RCall.reconfigureVM 9 2 4096,
        RCall.powerOnVM 9]) ∧
    ((create_vm isoReqStart powerOnFailEnv).1.status = 500 ∧
     (create_vm isoReqStart powerOnFailEnv).2.filter mutatingCall =
       [RCall.createVM 10 11 "web02", RCall.powerOnVM 8]) :=
  have h1 := (create_vm_no_rollback_on_late_failure tplReq reconfigFailEnv
    7 9 "reconfig failed" (by decide) rfl).1 (by decide) (by decide)
    (by decide) (by decide) rfl rfl rfl
  have h2 := (create_vm_no_rollback_on_late_failure tplReq powerOnFailEnv
    7 9 "poweron failed" (by decide) rfl).2.1 (by decide) (by decide)
    (by decide) (by decide) rfl rfl rfl rfl (by decide) rfl
  have h3 := (create_vm_no_rollback_on_late_failure isoReqStart
    powerOnFailEnv 7 8 "poweron failed" (by decide) rfl).2.2 (by decide)
    (by decide) (by decide) (by decide) (by decide) (Or.inl (by decide))
    rfl rfl rfl (by decide) rfl
  ⟨⟨h1.1, h1.2.2.2.trans (by decide)⟩,
   ⟨h2.1, h2.2.2.2.trans (by decide)⟩,
   ⟨h3.1, h3.2.2.2.trans (by decide)⟩⟩

end VsphereApp
